import Mathlib

/-!
Verification of the Kafka bridge core of the repository
(`src/kafka_bridge/`): serializers, consumer batching, producer
dead-letter path, API retry behaviour, and the orchestrator's
consume → process → produce → commit loop.

The Python code is shallowly embedded: Python values that can appear in a
record are the inductive `PyValue`; dicts are association lists in insertion
order (Python dicts are ordered and duplicate-free, so association-list
lookup coincides with dict lookup); byte strings are lists of `Fin 256`.
Each embedded function carries a comment naming the source function it
translates.
-/

namespace KafkaBridge

/-- Python values as they appear in bridge records: the JSON-expressible
scalars plus `bytes`, lists and (ordered) dicts.  Floats do not occur in
any claim and are not modelled. -/
inductive PyValue where
  | none
  | bool (b : Bool)
  | int (n : Int)
  | str (s : String)
  | bytes (bs : List (Fin 256))
  | list (xs : List PyValue)
  | dict (kvs : List (String × PyValue))

/-- Python truthiness (`bool(v)`): `None`, `False`, zero, and empty
containers are falsy. -/
def truthy : PyValue → Bool
  | .none => false
  | .bool b => b
  | .int n => n != 0
  | .str s => !s.isEmpty
  | .bytes bs => !bs.isEmpty
  | .list xs => !xs.isEmpty
  | .dict kvs => !kvs.isEmpty

/-- Python `str(v)` on the scalar values the bridge feeds it (`objectId`
and `candid` are strings or integers in alert records).  The container and
bytes cases stand for Python's `repr`-style rendering, which no claim
evaluates. -/
def pyStr : PyValue → String
  | .none => "None"
  | .bool true => "True"
  | .bool false => "False"
  | .int n => toString n
  | .str s => s
  | .bytes _ => "<bytes>"
  | .list _ => "<list>"
  | .dict _ => "<dict>"

/-- Python `d.get(k)` on an (ordered, duplicate-free) dict. -/
def pyGet (kvs : List (String × PyValue)) (k : String) : Option PyValue :=
  kvs.lookup k

/-- The fixed cutout field names removed by
`MessageSerializer._strip_cutouts` (serializers.py line 204). -/
def cutout_fields : List String :=
  ["cutoutScience", "cutoutTemplate", "cutoutDifference"]

/-- Embedding of `MessageSerializer._strip_cutouts` (serializers.py
lines 195-205): identity when the `skip_cutouts` toggle is off, otherwise
the dict comprehension dropping the three cutout keys. -/
def strip_cutouts (skip_cutouts : Bool) (data : List (String × PyValue)) :
    List (String × PyValue) :=
  if ! skip_cutouts then data
  else data.filter (fun kv => ! cutout_fields.contains kv.1)

/-- C8: cutout stripping is idempotent, with the toggle on or off. -/
theorem strip_cutouts_idempotent (skip_cutouts : Bool)
    (data : List (String × PyValue)) :
    strip_cutouts skip_cutouts (strip_cutouts skip_cutouts data) =
      strip_cutouts skip_cutouts data := by
  unfold strip_cutouts
  cases skip_cutouts with
  | false => simp
  | true => simp [List.filter_filter]

/-! ### Key extraction (bridge.py / producer.py) -/

/-- Embedding of `KafkaBridge._extract_key` (bridge.py lines 102-107):
`data.get("objectId") or str(data.get("candid", ""))`.  Python's `or`
returns its first operand when truthy, otherwise its second; `dict.get`
with one argument defaults to `None`, and `data.get("candid", "")`
defaults to the empty string. -/
def extract_key (data : List (String × PyValue)) : PyValue :=
  let objectId := (pyGet data "objectId").getD .none
  if truthy objectId then objectId
  else .str (pyStr ((pyGet data "candid").getD (.str "")))

/-- Embedding of the key handling in `KafkaProducerWrapper.produce`
(producer.py lines 110-111): the key is attached to the outgoing message
only when `if key:` holds, i.e. only when the key is truthy; a falsy key
(such as the empty string) is dropped. -/
def produced_key (data : List (String × PyValue)) : Option PyValue :=
  let key := extract_key data
  if truthy key then some key else Option.none

/-- Modelled from the spec's words for comparison (claim C6): return
`objectId` when present, else the stringified `candid` when present, else
no key at all. -/
def extract_key_spec (data : List (String × PyValue)) : Option PyValue :=
  match pyGet data "objectId" with
  | some v => some v
  | Option.none =>
    match pyGet data "candid" with
    | some c => some (.str (pyStr c))
    | Option.none => Option.none

/-- C6 counterexample: on a record with neither `objectId` nor `candid`
the code returns the empty string, not "no key" as the claim states; and
on a record whose `objectId` is present but falsy the code falls through
to `candid` instead of returning the `objectId`. -/
theorem extract_key_claim_counterexample :
    extract_key [] = PyValue.str "" ∧
    extract_key_spec [] = Option.none ∧
    extract_key [("objectId", PyValue.str ""), ("candid", PyValue.int 5)] =
      PyValue.str "5" ∧
    extract_key_spec [("objectId", PyValue.str ""), ("candid", PyValue.int 5)] =
      some (PyValue.str "") :=
  ⟨rfl, rfl, rfl, rfl⟩

/-- C6 (amended): key extraction returns the record's `objectId` value
when present and truthy; otherwise it returns the stringification of the
`candid` value (defaulting to the empty string), so with both fields
absent it returns the empty string — which the producer's `if key:` check
then drops, attaching no key to the message. -/
theorem extract_key_amended (data : List (String × PyValue)) :
    (∀ v, pyGet data "objectId" = some v → truthy v = true →
      extract_key data = v) ∧
    (truthy ((pyGet data "objectId").getD PyValue.none) = false →
      extract_key data = .str (pyStr ((pyGet data "candid").getD (.str "")))) ∧
    (pyGet data "objectId" = Option.none → pyGet data "candid" = Option.none →
      extract_key data = PyValue.str "" ∧ produced_key data = Option.none) := by
  refine ⟨?_, ?_, ?_⟩
  · intro v hv htr
    simp [extract_key, hv, htr]
  · intro hf
    simp [extract_key, hf]
  · intro h1 h2
    constructor
    · simp [extract_key, h1, h2, truthy, pyStr, String.isEmpty_iff]
    · simp [produced_key, extract_key, h1, h2, truthy, pyStr, String.isEmpty_iff]

/-- Closed instance of `extract_key_amended`: a truthy `objectId` is
returned as the key, and the empty record yields the empty string with no
key attached by the producer. -/
theorem extract_key_amended_witness :
    extract_key [("objectId", PyValue.str "ZTF21abc")] = PyValue.str "ZTF21abc" ∧
    (extract_key [] = PyValue.str "" ∧ produced_key [] = Option.none) :=
  ⟨(extract_key_amended [("objectId", PyValue.str "ZTF21abc")]).1 _ rfl rfl,
   (extract_key_amended []).2.2 rfl rfl⟩

/-! ### Consumer batching (consumer.py)

The consumer's `consume_batch` loop polls Kafka repeatedly, checking
`len(messages) < batch_size` and whether `timeout_ms` has elapsed before
each poll.  We model the environment of one call as a finite list of
`PollStep`s: the wall-clock milliseconds elapsed since the loop started
when the iteration begins, and what `_poll_single` returns (no message,
or a message).  `serializer.deserialize` is abstracted as a function
returning `Except` (it raises on malformed payloads). -/

/-- A raw Kafka message, identified here by its offset; the payload is
folded into the `deser` oracle. -/
structure RawMessage where
  offset : Nat
deriving DecidableEq

/-- One iteration of the consumer's poll loop as offered by the
environment: the elapsed time when the iteration starts and the poll's
outcome. -/
structure PollStep where
  elapsedMs : Nat
  poll : Option RawMessage

/-- The consumer-relevant slice of `BridgeConfig` (config.py lines 74-77). -/
structure ConsumerConfig where
  batch_size : Nat
  batch_timeout_ms : Nat

/-- Python `arg or default` for an `Optional[int]` argument: both `None`
and `0` are falsy and are replaced by the default (consumer.py
lines 98-99). -/
def pyOrNat (arg : Option Nat) (dflt : Nat) : Nat :=
  match arg with
  | Option.none => dflt
  | some n => if n = 0 then dflt else n

/-- Embedding of the `while len(messages) < batch_size` loop of
`KafkaConsumerWrapper.consume_batch` (consumer.py lines 101-131): stop
when the batch is full or the timeout has elapsed; skip empty polls and
messages that fail deserialization (counting them is a logging effect not
modelled); append each successfully deserialized `(data, message)` pair. -/
def consume_batch_go (batch_size timeout_ms : Nat)
    (deser : RawMessage → Except String PyValue) :
    List PollStep → List (PyValue × RawMessage) → List (PyValue × RawMessage)
  | [], acc => acc
  | step :: rest, acc =>
    if acc.length < batch_size then
      if timeout_ms ≤ step.elapsedMs then acc
      else
        match step.poll with
        | Option.none => consume_batch_go batch_size timeout_ms deser rest acc
        | some msg =>
          match deser msg with
          | .ok data =>
            consume_batch_go batch_size timeout_ms deser rest (acc ++ [(data, msg)])
          | .error _ => consume_batch_go batch_size timeout_ms deser rest acc
    else acc

/-- Embedding of `KafkaConsumerWrapper.consume_batch` (consumer.py
lines 84-140): falsy arguments fall back to the configured defaults, then
the poll loop runs starting from an empty batch. -/
def consume_batch (config : ConsumerConfig) (batch_size timeout_ms : Option Nat)
    (deser : RawMessage → Except String PyValue) (steps : List PollStep) :
    List (PyValue × RawMessage) :=
  consume_batch_go (pyOrNat batch_size config.batch_size)
    (pyOrNat timeout_ms config.batch_timeout_ms) deser steps []

/-- The poll loop never grows the batch beyond `batch_size`, whatever the
environment delivers. -/
theorem consume_batch_go_length (batch_size timeout_ms : Nat)
    (deser : RawMessage → Except String PyValue) :
    ∀ (steps : List PollStep) (acc : List (PyValue × RawMessage)),
      acc.length ≤ batch_size →
      (consume_batch_go batch_size timeout_ms deser steps acc).length ≤ batch_size := by
  intro steps
  induction steps with
  | nil => intro acc h; simpa [consume_batch_go] using h
  | cons step rest ih =>
    intro acc h
    by_cases hlen : acc.length < batch_size
    · simp only [consume_batch_go, if_pos hlen]
      by_cases htime : timeout_ms ≤ step.elapsedMs
      · simpa [htime] using h
      · simp only [if_neg htime]
        cases hp : step.poll with
        | none => exact ih acc h
        | some msg =>
          dsimp only
          cases hd : deser msg with
          | ok data => exact ih (acc ++ [(data, msg)]) (by simpa using hlen)
          | error e => exact ih acc h
    · simpa [consume_batch_go, hlen] using h

/-- C7: for every positive requested batch size `n` and any timeout,
`consume_batch n t` returns at most `n` (record, message) pairs, no
matter how many messages the underlying polls deliver. -/
theorem consume_batch_at_most_n (config : ConsumerConfig) (n t : Nat)
    (deser : RawMessage → Except String PyValue) (steps : List PollStep)
    (h : 0 < n) :
    (consume_batch config (some n) (some t) deser steps).length ≤ n := by
  unfold consume_batch
  have hn : pyOrNat (some n) config.batch_size = n := by
    simp [pyOrNat, Nat.pos_iff_ne_zero.mp h]
  rw [hn]
  exact consume_batch_go_length n _ deser steps [] (by simp)

/-- Closed instance of `consume_batch_at_most_n`: three delivered
messages against a requested batch size of 2 yield at most 2 pairs. -/
theorem consume_batch_at_most_n_witness :
    0 < 2 ∧
    (consume_batch ⟨10, 1000⟩ (some 2) (some 1000)
      (fun _ => Except.ok PyValue.none)
      [⟨0, some ⟨0⟩⟩, ⟨1, some ⟨1⟩⟩, ⟨2, some ⟨2⟩⟩]).length ≤ 2 :=
  ⟨by decide,
   consume_batch_at_most_n ⟨10, 1000⟩ 2 1000 (fun _ => Except.ok PyValue.none)
     [⟨0, some ⟨0⟩⟩, ⟨1, some ⟨1⟩⟩, ⟨2, some ⟨2⟩⟩] (by decide)⟩

/-- C10: falsy `batch_size`/`timeout_ms` arguments (`0` as well as
`None`) are replaced by the configured defaults, so `consume_batch 0 0`
behaves identically to
`consume_batch config.batch_size config.batch_timeout_ms` in every
environment. -/
theorem consume_batch_falsy_args_default (config : ConsumerConfig)
    (deser : RawMessage → Except String PyValue) (steps : List PollStep) :
    consume_batch config (some 0) (some 0) deser steps =
      consume_batch config (some config.batch_size)
        (some config.batch_timeout_ms) deser steps ∧
    consume_batch config Option.none Option.none deser steps =
      consume_batch config (some config.batch_size)
        (some config.batch_timeout_ms) deser steps := by
  constructor <;> simp [consume_batch, pyOrNat]

/-! ### Base64 (the `base64` standard-library collaborator of serializers.py)

`JsonSerializer` calls `base64.b64encode` / `base64.b64decode`.  These are
external library functions, embedded here from the RFC 4648 encoding they
implement: three bytes become four alphabet characters, a final group of
one or two bytes is padded with `=`.  The decoder is modelled on
well-formed base64 text (alphabet characters with canonical padding),
which is the only input the bridge's round trips feed it; on malformed
text `b64decode` raises `binascii.Error`, a path no claim exercises. -/

/-- The 64-character base64 alphabet, in index order. -/
def b64Alphabet : List Char :=
  ['A','B','C','D','E','F','G','H','I','J','K','L','M',
   'N','O','P','Q','R','S','T','U','V','W','X','Y','Z',
   'a','b','c','d','e','f','g','h','i','j','k','l','m',
   'n','o','p','q','r','s','t','u','v','w','x','y','z',
   '0','1','2','3','4','5','6','7','8','9','+','/']

/-- The alphabet character for a six-bit group. -/
def encodeChar (n : Nat) : Char :=
  b64Alphabet.getD n 'A'

/-- The six-bit group of an alphabet character. -/
def decodeChar (c : Char) : Nat :=
  b64Alphabet.indexOf c

/-- A byte from a decoded numeric value (always below 256 for sextets
produced by a real decode). -/
def mkByte (n : Nat) : Fin 256 :=
  ⟨n % 256, Nat.mod_lt n (by omega)⟩

/-- Base64 encoding of a byte string (`base64.b64encode`), grouped three
bytes at a time with `=` padding on the final group. -/
def b64encode : List (Fin 256) → List Char
  | [] => []
  | [b0] =>
    [encodeChar (b0.val / 4), encodeChar (b0.val % 4 * 16), '=', '=']
  | [b0, b1] =>
    [encodeChar (b0.val / 4), encodeChar (b0.val % 4 * 16 + b1.val / 16),
     encodeChar (b1.val % 16 * 4), '=']
  | b0 :: b1 :: b2 :: rest =>
    encodeChar (b0.val / 4) :: encodeChar (b0.val % 4 * 16 + b1.val / 16) ::
    encodeChar (b1.val % 16 * 4 + b2.val / 64) :: encodeChar (b2.val % 64) ::
    b64encode rest

/-- Base64 decoding of well-formed base64 text (`base64.b64decode`),
four characters at a time, honouring `=` padding on the final group. -/
def b64decode : List Char → List (Fin 256)
  | c0 :: c1 :: c2 :: c3 :: rest =>
    let s0 := decodeChar c0
    let s1 := decodeChar c1
    if c2 = '=' then
      [mkByte (s0 * 4 + s1 / 16)]
    else
      let s2 := decodeChar c2
      if c3 = '=' then
        [mkByte (s0 * 4 + s1 / 16), mkByte (s1 % 16 * 16 + s2 / 4)]
      else
        let s3 := decodeChar c3
        mkByte (s0 * 4 + s1 / 16) :: mkByte (s1 % 16 * 16 + s2 / 4) ::
        mkByte (s2 % 4 * 64 + s3) :: b64decode rest
  | _ => []

/-- Base64 encoding as a `str`, as `b64encode(obj).decode("ascii")`
yields in `JsonSerializer._handle_bytes_for_json`. -/
def b64encodeStr (bs : List (Fin 256)) : String :=
  String.mk (b64encode bs)

/-- Base64 decoding of a `str`. -/
def b64decodeStr (s : String) : List (Fin 256) :=
  b64decode s.data

/-- Decoding inverts encoding on each six-bit group. -/
theorem decodeChar_encodeChar : ∀ n : Fin 64, decodeChar (encodeChar n.val) = n.val := by
  decide

/-- No alphabet character is the padding character. -/
theorem encodeChar_ne_pad : ∀ n : Fin 64, encodeChar n.val ≠ '=' := by
  decide

/-- Convenience form of `decodeChar_encodeChar` for `omega`-derived bounds. -/
theorem decodeChar_encodeChar_of_lt {n : Nat} (h : n < 64) :
    decodeChar (encodeChar n) = n :=
  decodeChar_encodeChar ⟨n, h⟩

/-- Convenience form of `encodeChar_ne_pad` for `omega`-derived bounds. -/
theorem encodeChar_ne_pad_of_lt {n : Nat} (h : n < 64) :
    encodeChar n ≠ '=' :=
  encodeChar_ne_pad ⟨n, h⟩

/-- Base64 decoding inverts base64 encoding on every byte string. -/
theorem b64decode_b64encode : ∀ bs : List (Fin 256), b64decode (b64encode bs) = bs := by
  intro bs
  induction bs using b64encode.induct with
  | case1 => rfl
  | case2 b0 =>
    have h0 : b0.val < 256 := b0.isLt
    simp only [b64encode, b64decode, if_pos rfl,
      decodeChar_encodeChar_of_lt (show b0.val / 4 < 64 by omega),
      decodeChar_encodeChar_of_lt (show b0.val % 4 * 16 < 64 by omega)]
    refine List.cons_eq_cons.mpr ⟨Fin.ext ?_, rfl⟩
    show (b0.val / 4 * 4 + b0.val % 4 * 16 / 16) % 256 = b0.val
    omega
  | case3 b0 b1 =>
    have h0 : b0.val < 256 := b0.isLt
    have h1 : b1.val < 256 := b1.isLt
    simp only [b64encode, b64decode,
      if_neg (encodeChar_ne_pad_of_lt (show b1.val % 16 * 4 < 64 by omega)),
      if_pos rfl,
      decodeChar_encodeChar_of_lt (show b0.val / 4 < 64 by omega),
      decodeChar_encodeChar_of_lt (show b0.val % 4 * 16 + b1.val / 16 < 64 by omega),
      decodeChar_encodeChar_of_lt (show b1.val % 16 * 4 < 64 by omega)]
    refine List.cons_eq_cons.mpr ⟨Fin.ext ?_, List.cons_eq_cons.mpr ⟨Fin.ext ?_, rfl⟩⟩
    · show (b0.val / 4 * 4 + (b0.val % 4 * 16 + b1.val / 16) / 16) % 256 = b0.val
      omega
    · show ((b0.val % 4 * 16 + b1.val / 16) % 16 * 16 + b1.val % 16 * 4 / 4) % 256 = b1.val
      omega
  | case4 b0 b1 b2 rest ih =>
    have h0 : b0.val < 256 := b0.isLt
    have h1 : b1.val < 256 := b1.isLt
    have h2 : b2.val < 256 := b2.isLt
    simp only [b64encode, b64decode,
      if_neg (encodeChar_ne_pad_of_lt (show b1.val % 16 * 4 + b2.val / 64 < 64 by omega)),
      if_neg (encodeChar_ne_pad_of_lt (show b2.val % 64 < 64 by omega)),
      decodeChar_encodeChar_of_lt (show b0.val / 4 < 64 by omega),
      decodeChar_encodeChar_of_lt (show b0.val % 4 * 16 + b1.val / 16 < 64 by omega),
      decodeChar_encodeChar_of_lt (show b1.val % 16 * 4 + b2.val / 64 < 64 by omega),
      decodeChar_encodeChar_of_lt (show b2.val % 64 < 64 by omega)]
    refine List.cons_eq_cons.mpr ⟨Fin.ext ?_,
      List.cons_eq_cons.mpr ⟨Fin.ext ?_, List.cons_eq_cons.mpr ⟨Fin.ext ?_, ih⟩⟩⟩
    · show (b0.val / 4 * 4 + (b0.val % 4 * 16 + b1.val / 16) / 16) % 256 = b0.val
      omega
    · show ((b0.val % 4 * 16 + b1.val / 16) % 16 * 16 +
        (b1.val % 16 * 4 + b2.val / 64) / 4) % 256 = b1.val
      omega
    · show ((b1.val % 16 * 4 + b2.val / 64) % 4 * 64 + b2.val % 64) % 256 = b2.val
      omega

/-! ### JSON codec (serializers.py, `JsonSerializer`)

`serialize` is `json.dumps(self._handle_bytes_for_json(data)).encode`,
`deserialize` is `self._handle_bytes_from_json(json.loads(data.decode))`.
The `json.dumps`/`json.loads` text layer is the standard bijection
between byte-free Python value trees and JSON documents and is abstracted
away: both functions are embedded at the value level, so `jsonSerialize`
returns the JSON document as a value tree and `jsonDeserialize` consumes
one. -/

/-- The tagged object `_handle_bytes_for_json` emits for a bytes value
(serializers.py lines 107-112). -/
def taggedBytesObj (s : String) : PyValue :=
  .dict [("_type", .str "bytes"), ("_encoding", .str "base64"),
         ("_value", .str s)]

mutual

/-- Embedding of `JsonSerializer._handle_bytes_for_json` (serializers.py
lines 105-117): recursively replace every bytes value by its tagged
base64 object, descending through dicts and lists. -/
def handle_bytes_for_json : PyValue → PyValue
  | .none => .none
  | .bool b => .bool b
  | .int n => .int n
  | .str s => .str s
  | .bytes bs => taggedBytesObj (b64encodeStr bs)
  | .list xs => .list (forJsonList xs)
  | .dict kvs => .dict (forJsonDict kvs)

/-- List case of `_handle_bytes_for_json`. -/
def forJsonList : List PyValue → List PyValue
  | [] => []
  | x :: xs => handle_bytes_for_json x :: forJsonList xs

/-- Dict case of `_handle_bytes_for_json`. -/
def forJsonDict : List (String × PyValue) → List (String × PyValue)
  | [] => []
  | (k, v) :: kvs => (k, handle_bytes_for_json v) :: forJsonDict kvs

end

mutual

/-- Embedding of `JsonSerializer._handle_bytes_from_json` (serializers.py
lines 119-127): a dict whose `_type` is `"bytes"` and `_encoding` is
`"base64"` becomes the base64-decoded bytes of its `_value`; other dicts
and lists are mapped recursively; scalars pass through.  The source
raises `KeyError` when such a dict lacks `_value` and `b64decode` raises
`TypeError` on a non-string `_value`; both raises are modelled as
`Except.error`. -/
def handle_bytes_from_json : PyValue → Except String PyValue
  | .dict kvs =>
    match pyGet kvs "_type", pyGet kvs "_encoding" with
    | some (.str "bytes"), some (.str "base64") =>
      match pyGet kvs "_value" with
      | some (.str s) => .ok (.bytes (b64decodeStr s))
      | some _ => .error "TypeError"
      | Option.none => .error "KeyError"
    | _, _ => (fromJsonDict kvs).map PyValue.dict
  | .list xs => (fromJsonList xs).map PyValue.list
  | .none => .ok .none
  | .bool b => .ok (.bool b)
  | .int n => .ok (.int n)
  | .str s => .ok (.str s)
  | .bytes bs => .ok (.bytes bs)

/-- List case of `_handle_bytes_from_json`. -/
def fromJsonList : List PyValue → Except String (List PyValue)
  | [] => .ok []
  | x :: xs =>
    (handle_bytes_from_json x).bind fun y =>
      (fromJsonList xs).map fun ys => y :: ys

/-- Dict case of `_handle_bytes_from_json`. -/
def fromJsonDict : List (String × PyValue) →
    Except String (List (String × PyValue))
  | [] => .ok []
  | (k, v) :: kvs =>
    (handle_bytes_from_json v).bind fun w =>
      (fromJsonDict kvs).map fun ws => (k, w) :: ws

end

/-- Value-level embedding of `JsonSerializer.serialize` (serializers.py
lines 141-151): the emitted JSON document as a value tree. -/
def jsonSerialize (data : PyValue) : PyValue :=
  handle_bytes_for_json data

/-- Value-level embedding of `JsonSerializer.deserialize` (serializers.py
lines 129-139), applied to a parsed JSON document. -/
def jsonDeserialize (doc : PyValue) : Except String PyValue :=
  handle_bytes_from_json doc

/-- Deserializing any tagged base64 object yields the decoded bytes of
its `_value`, whatever dict the object came from. -/
theorem from_json_taggedBytesObj (s : String) :
    handle_bytes_from_json (taggedBytesObj s) = .ok (.bytes (b64decodeStr s)) :=
  rfl

/-- The byte-level round trip through the two handlers restores the
original bytes. -/
theorem from_json_for_json_bytes (bs : List (Fin 256)) :
    handle_bytes_from_json (handle_bytes_for_json (.bytes bs)) =
      .ok (.bytes bs) := by
  show handle_bytes_from_json (taggedBytesObj (b64encodeStr bs)) =
    Except.ok (PyValue.bytes bs)
  rw [from_json_taggedBytesObj]
  show Except.ok (PyValue.bytes (b64decode (b64encode bs))) =
    Except.ok (PyValue.bytes bs)
  rw [b64decode_b64encode]

/-- Serializing a dict maps each field's value through the bytes handler,
keeping keys and order. -/
theorem forJsonDict_lookup (kvs : List (String × PyValue)) (k : String)
    (bs : List (Fin 256)) (h : pyGet kvs k = some (.bytes bs)) :
    pyGet (forJsonDict kvs) k = some (taggedBytesObj (b64encodeStr bs)) := by
  induction kvs with
  | nil => simp [pyGet, List.lookup] at h
  | cons kv rest ih =>
    obtain ⟨k', v⟩ := kv
    by_cases hk : k = k'
    · subst hk
      simp [pyGet, List.lookup] at h
      simp [pyGet, forJsonDict, List.lookup, h, handle_bytes_for_json]
    · have hb : (k == k') = false := beq_eq_false_iff_ne.mpr hk
      simp only [pyGet, List.lookup, hb] at h
      simpa [pyGet, forJsonDict, List.lookup, hb] using ih h

/-- C4: a bytes field serializes to the tagged base64 object
(`b"\x01\x02"` to `"AQI="` in particular), and deserializing the
serialized record restores the original bytes byte-for-byte for that
field. -/
theorem json_codec_bytes_field :
    (∀ bs : List (Fin 256),
      handle_bytes_for_json (.bytes bs) = taggedBytesObj (b64encodeStr bs)) ∧
    b64encodeStr [1, 2] = "AQI=" ∧
    (∀ s : String,
      handle_bytes_from_json (taggedBytesObj s) = .ok (.bytes (b64decodeStr s))) ∧
    (∀ (kvs : List (String × PyValue)) (k : String) (bs : List (Fin 256)),
      pyGet kvs k = some (.bytes bs) →
        ∃ kvs', jsonSerialize (.dict kvs) = .dict kvs' ∧
          pyGet kvs' k = some (taggedBytesObj (b64encodeStr bs)) ∧
          handle_bytes_from_json (taggedBytesObj (b64encodeStr bs)) =
            .ok (.bytes bs)) := by
  refine ⟨fun bs => rfl, by decide, from_json_taggedBytesObj, ?_⟩
  intro kvs k bs h
  refine ⟨forJsonDict kvs, rfl, forJsonDict_lookup kvs k bs h, ?_⟩
  have := from_json_for_json_bytes bs
  simpa [handle_bytes_for_json] using this

/-- Closed instance of `json_codec_bytes_field`: a record with
`stampData = b"\x01\x02"` serializes that field to the tagged `"AQI="`
object and the field deserializes back to the same bytes. -/
theorem json_codec_bytes_field_witness :
    pyGet [("stampData", PyValue.bytes [1, 2])] "stampData" =
      some (PyValue.bytes [1, 2]) ∧
    ∃ kvs', jsonSerialize (.dict [("stampData", PyValue.bytes [1, 2])]) =
        .dict kvs' ∧
      pyGet kvs' "stampData" = some (taggedBytesObj (b64encodeStr [1, 2])) ∧
      handle_bytes_from_json (taggedBytesObj (b64encodeStr [1, 2])) =
        .ok (.bytes [1, 2]) :=
  ⟨rfl, json_codec_bytes_field.2.2.2 [("stampData", PyValue.bytes [1, 2])]
    "stampData" [1, 2] rfl⟩

/-- C9: the deserializer converts every dict of the exact tagged shape
into decoded bytes regardless of origin, so a record legitimately
containing such a plain mapping (and no bytes) does not survive the JSON
round trip: `deserialize (serialize r)` differs from `r`. -/
theorem from_json_tagged_shape_unconditional :
    (∀ s : String,
      handle_bytes_from_json
        (.dict [("_type", .str "bytes"), ("_encoding", .str "base64"),
                ("_value", .str s)]) = .ok (.bytes (b64decodeStr s))) ∧
    jsonDeserialize (jsonSerialize (.dict [("f", taggedBytesObj "AQI=")])) =
      .ok (.dict [("f", .bytes [1, 2])]) ∧
    PyValue.dict [("f", PyValue.bytes [1, 2])] ≠
      PyValue.dict [("f", taggedBytesObj "AQI=")] := by
  refine ⟨from_json_taggedBytesObj, ?_, ?_⟩
  · rfl
  · simp [taggedBytesObj]

/-! ### Processing client (api_client.py)

`APIClient._create_session` (lines 34-50) mounts a `urllib3`
`Retry(total=api_retry_count, status_forcelist=[429,500,502,503,504])`
adapter, and `call_batch` (lines 131-191) posts through that session and
catches every `RequestException`, returning `None`.

The retry machinery is the `urllib3` collaborator, embedded from its
documented semantics: each request is attempted, and on a status in the
forcelist the retry object's `total` budget is decremented; when the
budget would go below zero, `MaxRetryError` is raised (surfacing in
`requests` as a `RetryError`, a `RequestException`).  So a `total` of `n`
allows `n` retries after the initial attempt.  The environment is a
function `respond` from the zero-based attempt index to the HTTP status
returned. -/

/-- The retryable status set configured in `_create_session`
(api_client.py line 42). -/
def status_forcelist : List Nat := [429, 500, 502, 503, 504]

/-- One `urlopen` with retries, embedded from urllib3: returns the final
response status, or `Except.error` for `MaxRetryError`, paired with the
total number of HTTP attempts issued.  `total` is the remaining retry
budget, `k` the attempts made so far. -/
def urlopenRetries (respond : Nat → Nat) : Nat → Nat → Except Unit Nat × Nat
  | total, k =>
    let status := respond k
    if status ∈ status_forcelist then
      match total with
      | 0 => (Except.error (), k + 1)
      | t + 1 => urlopenRetries respond t (k + 1)
    else (Except.ok status, k + 1)

/-- Embedding of `APIClient.call_batch` (api_client.py lines 131-191) at
the transport level: post through the retrying session; a
`MaxRetryError`/`RetryError` or an error status surviving
`raise_for_status` is caught and mapped to `None`; on a 2xx/3xx response
the normalized body (abstracted as `okBody`, since the claims never reach
it) is returned.  The pair's second component counts HTTP attempts. -/
def call_batch (api_retry_count : Nat) (respond : Nat → Nat)
    (okBody : List PyValue) : Option (List PyValue) × Nat :=
  match urlopenRetries respond api_retry_count 0 with
  | (Except.error _, attempts) => (Option.none, attempts)
  | (Except.ok status, attempts) =>
    if 400 ≤ status then (Option.none, attempts)
    else (some okBody, attempts)

/-- Against an always-503 endpoint, the retry loop makes one attempt per
unit of budget plus the initial one. -/
theorem urlopenRetries_always_503 :
    ∀ total k, urlopenRetries (fun _ => 503) total k =
      (Except.error (), k + total + 1) := by
  intro total
  induction total with
  | zero => intro k; rfl
  | succ t ih =>
    intro k
    show urlopenRetries (fun _ => 503) t (k + 1) = _
    rw [ih (k + 1)]
    congr 1
    omega

/-- C2 counterexample: with `api_retry_count = 3` and an endpoint that
always returns 503, `call_batch` issues 4 HTTP attempts, not 3 as the
claim states (it does return null). -/
theorem call_batch_retry_claim_counterexample :
    (call_batch 3 (fun _ => 503) []).2 = 4 ∧ (4 ≠ 3) ∧
    (call_batch 3 (fun _ => 503) []).1 = Option.none := by
  refine ⟨?_, by decide, ?_⟩ <;> rfl

/-- C2 (amended): against an endpoint that always returns 503,
`call_batch` issues exactly `api_retry_count + 1` HTTP attempts (the
initial attempt plus `api_retry_count` retries of the urllib3 budget) and
returns null. -/
theorem call_batch_always_503 (api_retry_count : Nat)
    (okBody : List PyValue) :
    call_batch api_retry_count (fun _ => 503) okBody =
      (Option.none, api_retry_count + 1) := by
  unfold call_batch
  rw [urlopenRetries_always_503 api_retry_count 0]
  dsimp only
  congr 1
  omega

/-! ### Bridge orchestrator (bridge.py) -/

/-- Embedding of the result-alignment step of `KafkaBridge._process_batch`
(bridge.py lines 137-148): when the result count mismatches the input
count, pad the tail with empty records or truncate to the input count;
when counts match, pass the results through unchanged. -/
def alignResults (results data_list : List PyValue) : List PyValue :=
  if results.length ≠ data_list.length then
    if results.length < data_list.length then
      results ++ List.replicate (data_list.length - results.length) (PyValue.dict [])
    else results.take data_list.length
  else results

/-- Aligned output always has exactly as many entries as the input. -/
theorem alignResults_length (results data_list : List PyValue) :
    (alignResults results data_list).length = data_list.length := by
  unfold alignResults
  by_cases hne : results.length ≠ data_list.length
  · rw [if_pos hne]
    by_cases hlt : results.length < data_list.length
    · rw [if_pos hlt]; simp; omega
    · rw [if_neg hlt]; simp; omega
  · rw [if_neg hne]
    exact not_ne_iff.mp hne

/-- C3: when a non-null result list's length differs from the input batch
length, the aligned output has exactly `len(inputs)` entries, agrees with
the result list on every shared index, and is padded at the tail with
empty records when the result list is shorter. -/
theorem align_results_mismatch (results data_list : List PyValue)
    (hne : results.length ≠ data_list.length) :
    (alignResults results data_list).length = data_list.length ∧
    (∀ i, i < results.length → i < data_list.length →
      (alignResults results data_list)[i]? = results[i]?) ∧
    (∀ i, results.length ≤ i → i < data_list.length →
      (alignResults results data_list)[i]? = some (PyValue.dict [])) := by
  refine ⟨alignResults_length results data_list, ?_, ?_⟩
  · intro i h1 h2
    unfold alignResults
    rw [if_pos hne]
    by_cases hlt : results.length < data_list.length
    · rw [if_pos hlt, List.getElem?_append, if_pos h1]
    · rw [if_neg hlt, List.getElem?_take, if_pos h2]
  · intro i h1 h2
    unfold alignResults
    rw [if_pos hne]
    have hlt : results.length < data_list.length := by omega
    rw [if_pos hlt, List.getElem?_append, if_neg (by omega),
      List.getElem?_replicate, if_pos (by omega)]

/-- Closed instance of `align_results_mismatch`: one result against two
inputs is padded to two entries, keeping the result at index 0 and an
empty record at index 1. -/
theorem align_results_mismatch_witness :
    ([PyValue.int 9] : List PyValue).length ≠
      ([PyValue.none, PyValue.none] : List PyValue).length ∧
    ((alignResults [PyValue.int 9] [PyValue.none, PyValue.none]).length =
        ([PyValue.none, PyValue.none] : List PyValue).length ∧
      (∀ i, i < ([PyValue.int 9] : List PyValue).length →
          i < ([PyValue.none, PyValue.none] : List PyValue).length →
        (alignResults [PyValue.int 9] [PyValue.none, PyValue.none])[i]? =
          ([PyValue.int 9] : List PyValue)[i]?) ∧
      (∀ i, ([PyValue.int 9] : List PyValue).length ≤ i →
          i < ([PyValue.none, PyValue.none] : List PyValue).length →
        (alignResults [PyValue.int 9] [PyValue.none, PyValue.none])[i]? =
          some (PyValue.dict []))) :=
  ⟨by decide,
   align_results_mismatch [PyValue.int 9] [PyValue.none, PyValue.none] (by decide)⟩

/-- Embedding of `KafkaBridge._process_batch` (bridge.py lines 109-150):
a null API result yields `([], [])` (the batch is dropped and nothing is
committed); otherwise the results are aligned against the inputs and the
batch's messages are returned for committing.  The choice between
`call_batch` and `call_mlflow_invocations`, and the HTTP exchange itself,
are summarised by the `apiResult` argument. -/
def process_batch (batch : List (PyValue × RawMessage))
    (apiResult : Option (List PyValue)) :
    List PyValue × List RawMessage :=
  match apiResult with
  | Option.none => ([], [])
  | some results => (alignResults results (batch.map Prod.fst), batch.map Prod.snd)

/-- Observable transport actions of one iteration of `KafkaBridge.run`. -/
inductive BridgeEvent where
  /-- `producer.produce` was called for the aligned result at this index. -/
  | produceEv (idx : Nat)
  /-- `producer.flush(timeout=10)` was called and returned this many
  undelivered messages. -/
  | flushEv (remaining : Nat)
  /-- `consumer.commit` was called with this message. -/
  | commitEv (m : RawMessage)
deriving DecidableEq

/-- Embedding of one iteration of the `KafkaBridge.run` loop (bridge.py
lines 197-216) as its sequence of transport actions: `_process_batch`,
then — only when the aligned results are non-empty — one produce per
result (`_produce_results`, lines 152-178), a single flush (line 181,
whose returned remaining count is not inspected), and finally a commit of
the batch's last message (lines 215-216).  A null API result or an empty
result list produces no events at all. -/
def run_iteration_events (batch : List (PyValue × RawMessage))
    (apiResult : Option (List PyValue)) (flushRemaining : Nat) :
    List BridgeEvent :=
  let pr := process_batch batch apiResult
  if pr.1.isEmpty then []
  else
    ((List.range pr.1.length).map BridgeEvent.produceEv) ++
      (BridgeEvent.flushEv flushRemaining ::
        (match pr.2.getLast? with
         | some m => [BridgeEvent.commitEv m]
         | Option.none => []))

/-- C1 counterexample: a commit happens in an iteration whose flush
returned 1 undelivered message — no flush with zero remaining ever
occurred, yet the offset was committed. -/
theorem commit_after_flush_claim_counterexample :
    BridgeEvent.commitEv ⟨0⟩ ∈
      run_iteration_events [(PyValue.dict [], ⟨0⟩)] (some [PyValue.dict []]) 1 ∧
    BridgeEvent.flushEv 0 ∉
      run_iteration_events [(PyValue.dict [], ⟨0⟩)] (some [PyValue.dict []]) 1 := by
  decide

/-- C1 (amended): whenever an iteration commits an offset, the commit
comes strictly after the flush call, and every message of the batch had
its aligned output handed to `producer.produce` before that flush; the
flush's returned remaining count, however, is not consulted, so the
commit happens even when it is nonzero. -/
theorem commit_after_flush (batch : List (PyValue × RawMessage))
    (apiResult : Option (List PyValue)) (flushRemaining : Nat) (m : RawMessage)
    (h : BridgeEvent.commitEv m ∈ run_iteration_events batch apiResult flushRemaining) :
    ∃ pre post,
      run_iteration_events batch apiResult flushRemaining =
        pre ++ BridgeEvent.flushEv flushRemaining :: post ∧
      BridgeEvent.commitEv m ∈ post ∧
      ∀ k < batch.length, BridgeEvent.produceEv k ∈ pre := by
  cases apiResult with
  | none =>
    exfalso
    simp [run_iteration_events, process_batch] at h
  | some results =>
    by_cases hemp : (alignResults results (batch.map Prod.fst)).isEmpty
    · exfalso
      simp [run_iteration_events, process_batch, hemp] at h
    · cases hl : (batch.map Prod.snd).getLast? with
      | none =>
        exfalso
        simp [run_iteration_events, process_batch, hemp, hl] at h
      | some mlast =>
        have hm : m = mlast := by
          simpa [run_iteration_events, process_batch, hemp, hl] using h
        subst hm
        refine ⟨(List.range
            (alignResults results (batch.map Prod.fst)).length).map
            BridgeEvent.produceEv,
          [BridgeEvent.commitEv m], ?_, ?_, ?_⟩
        · simp [run_iteration_events, process_batch, hemp, hl]
        · simp
        · intro k hk
          have hlen : (alignResults results (batch.map Prod.fst)).length =
              batch.length := by
            rw [alignResults_length]; simp
          simp only [List.mem_map, List.mem_range]
          exact ⟨k, by omega, rfl⟩

/-- Closed instance of `commit_after_flush`: a one-message batch whose
processing succeeds commits after its flush, with the produce for index 0
before the flush. -/
theorem commit_after_flush_witness :
    BridgeEvent.commitEv ⟨7⟩ ∈
      run_iteration_events [(PyValue.dict [], ⟨7⟩)] (some [PyValue.dict []]) 0 ∧
    (∃ pre post,
      run_iteration_events [(PyValue.dict [], ⟨7⟩)] (some [PyValue.dict []]) 0 =
        pre ++ BridgeEvent.flushEv 0 :: post ∧
      BridgeEvent.commitEv ⟨7⟩ ∈ post ∧
      ∀ k < ([(PyValue.dict [], (⟨7⟩ : RawMessage))] : List (PyValue × RawMessage)).length,
        BridgeEvent.produceEv k ∈ pre) :=
  ⟨by decide,
   commit_after_flush [(PyValue.dict [], ⟨7⟩)] (some [PyValue.dict []]) 0 ⟨7⟩
     (by decide)⟩

/-! ### Producer dead-letter path (producer.py) -/

/-- Observable outcome of a `produce_to_dlq` call. -/
inductive DlqOutcome where
  /-- No dead-letter topic is configured: the call returns immediately. -/
  | noop
  /-- The envelope was queued and the send was logged. -/
  | sent
  /-- Serialization or enqueueing raised; the failure was caught and
  logged. -/
  | failedLogged
deriving DecidableEq

/-- Embedding of `KafkaProducerWrapper.produce_to_dlq` (producer.py
lines 192-233): return immediately when no dead-letter topic is
configured; raise `RuntimeError` (the `Except.error` case) when one is
configured but the producer is not connected; otherwise attempt the
publish — building the envelope, serializing and enqueueing it are
abstracted as `publish` — and catch and log any exception it raises. -/
def produce_to_dlq (dead_letter_topic : Option String) (connected : Bool)
    (publish : Except String Unit) : Except String DlqOutcome :=
  match dead_letter_topic with
  | Option.none => .ok .noop
  | some _ =>
    if !connected then .error "Producer not connected"
    else
      match publish with
      | .ok _ => .ok .sent
      | .error _ => .ok .failedLogged

/-- C5: with no dead-letter topic configured `produce_to_dlq` is a no-op,
and with a topic configured (and the producer connected, as it is
whenever the bridge runs) every failure during the publish is caught and
logged, never raised to the caller. -/
theorem produce_to_dlq_best_effort :
    (∀ (connected : Bool) (publish : Except String Unit),
      produce_to_dlq Option.none connected publish = .ok DlqOutcome.noop) ∧
    (∀ (t : String) (publish : Except String Unit),
      ∃ o, produce_to_dlq (some t) true publish = .ok o) ∧
    (∀ (t e : String),
      produce_to_dlq (some t) true (.error e) = .ok DlqOutcome.failedLogged) := by
  refine ⟨fun _ _ => rfl, ?_, fun _ _ => rfl⟩
  intro t publish
  cases publish with
  | ok u => exact ⟨.sent, rfl⟩
  | error e => exact ⟨.failedLogged, rfl⟩

end KafkaBridge
